import Mathlib

/-!
Shallow embedding of the XCP-over-SPI gateway (`src/Gateway/xcp_gateway.py`).

The SPI bus is modelled as a map from transaction index to the bytes the
target shifts out during that transaction (`SpiBus.rx`).  Each `xfer2` call
logs the transmitted frame and consumes one transaction index, mirroring the
full-duplex `spidev.xfer2` primitive.  The WebSocket side is modelled by a
list of replies sent so far; `json.loads` is external, so inbound messages
start from their parsed string fields (`Msg`).  Python exceptions that the
top-level `try/except` in `on_message` swallows are modelled by returning the
state accumulated so far without appending a reply.
-/

namespace XcpGateway

/-! ### Python-style string parsing (`int(s, 16)`, `int(s)`, `int(s, 2)`)

Modelled on the digit/prefix forms actually exercised by the JSON fields of the gateway; other `int()` forms (signs, whitespace, underscores) are treated as
parse failures, i.e. as a raised `ValueError`. -/

def hexDigitVal (c : Char) : Option Nat :=
  if '0' ≤ c ∧ c ≤ '9' then some (c.toNat - '0'.toNat)
  else if 'a' ≤ c ∧ c ≤ 'f' then some (c.toNat - 'a'.toNat + 10)
  else if 'A' ≤ c ∧ c ≤ 'F' then some (c.toNat - 'A'.toNat + 10)
  else none

def decDigitVal (c : Char) : Option Nat :=
  if '0' ≤ c ∧ c ≤ '9' then some (c.toNat - '0'.toNat) else none

def binDigitVal (c : Char) : Option Nat :=
  if c = '0' then some 0 else if c = '1' then some 1 else none

def parseDigitsAux (base : Nat) (dv : Char → Option Nat) :
    List Char → Nat → Option Nat
  | [], acc => some acc
  | c :: cs, acc =>
    match dv c with
    | none => none
    | some d => parseDigitsAux base dv cs (acc * base + d)

def parseDigits (base : Nat) (dv : Char → Option Nat) (cs : List Char) :
    Option Nat :=
  if cs.isEmpty then none else parseDigitsAux base dv cs 0

/-- `int(s, 16)`: optional `0x`/`0X` prefix, then hex digits. -/
def pyIntHex (s : String) : Option Nat :=
  let cs :=
    match s.data with
    | '0' :: 'x' :: rest => rest
    | '0' :: 'X' :: rest => rest
    | cs => cs
  parseDigits 16 hexDigitVal cs

/-- `int(s)`: decimal digits. -/
def pyIntDec (s : String) : Option Nat :=
  parseDigits 10 decDigitVal s.data

/-- `int(s, 2)`: optional `0b`/`0B` prefix, then binary digits. -/
def pyIntBin (s : String) : Option Nat :=
  let cs :=
    match s.data with
    | '0' :: 'b' :: rest => rest
    | '0' :: 'B' :: rest => rest
    | cs => cs
  parseDigits 2 binDigitVal cs

def beginsWith : List Char → List Char → Bool
  | [], _ => true
  | _ :: _, [] => false
  | p :: ps, c :: cs => p = c && beginsWith ps cs

def hasSub (pat : List Char) : List Char → Bool
  | [] => beginsWith pat []
  | c :: cs => beginsWith pat (c :: cs) || hasSub pat cs

/-- `int(size_str, 16) if "0x" in size_str else int(size_str)`. -/
def pySizeParse (s : String) : Option Nat :=
  if hasSub ['0', 'x'] s.data then pyIntHex s else pyIntDec s

/-- `f"0b{value:0{width}b}"`: minimal binary digits of `value`, left-padded
with `'0'` to `width` characters, preceded by `0b`. -/
def pyFormatBin (value width : Nat) : String :=
  let digits := Nat.toDigits 2 value
  let padded :=
    if digits.length < width then
      List.replicate (width - digits.length) '0' ++ digits
    else digits
  String.mk ('0' :: 'b' :: padded)

/-! ### Frame codec -/

/-- `[0xAA] * 8`, the filler frame used to clock out the response of the target. -/
def dummyFrame : List Nat := List.replicate 8 0xAA

/-- The padding in `send_command` (`if len(command) < 8: command += [0x00]*(8-len(command))`)
and in the mem_write path (`while len(spi_cmd) < 8: spi_cmd.append(0x00)`). -/
def pad8 (command : List Nat) : List Nat :=
  if command.length < 8 then command ++ List.replicate (8 - command.length) 0
  else command

/-- The frame built by `XcpSpiHandler.send_set_mta`:
`[0xF6, 0x00, 0x00, 0x00, addr_low, 0x00, 0x00, addr_high]` with
`addr_high = (address >> 24) & 0xFF`, `addr_low = address & 0xFF`. -/
def set_mta_frame (address : Nat) : List Nat :=
  let addr_high := (address >>> 24) &&& 0xFF
  let addr_low := address &&& 0xFF
  [0xF6, 0x00, 0x00, 0x00, addr_low, 0x00, 0x00, addr_high]

/-- The SHORT_UPLOAD frame built in the mem_read path:
`[0xF5, num_elements, 0x00, 0x00, addr_low, 0x00, 0x00, addr_high]`. -/
def short_upload_frame (num_elements address : Nat) : List Nat :=
  let addr_high := (address >>> 24) &&& 0xFF
  let addr_low := address &&& 0xFF
  [0xF5, num_elements, 0x00, 0x00, addr_low, 0x00, 0x00, addr_high]

/-! ### SPI transport model -/

/-- The target side of the bus: `rx n` is what the target shifts out during
the `n`-th `xfer2` transaction since startup. -/
structure SpiBus where
  rx : Nat → List Nat

/-- Gateway-side bus state: number of transactions performed so far and the
log of transmitted frames. -/
structure SpiState where
  count : Nat
  txLog : List (List Nat)
deriving DecidableEq

/-- One `spidev.xfer2` call: transmit a frame, receive the bytes the target
drives during the same transaction. -/
def xfer2 (bus : SpiBus) (s : SpiState) (tx : List Nat) : List Nat × SpiState :=
  (bus.rx s.count, ⟨s.count + 1, s.txLog ++ [tx]⟩)

/-- `XcpSpiHandler.send_command`: pad to 8 bytes, transmit, sleep 1 ms
(timing not modelled), transmit two filler frames, and return the bytes
received during the second filler transaction. -/
def send_command (bus : SpiBus) (s : SpiState) (command : List Nat) :
    List Nat × SpiState :=
  let command := pad8 command
  let (_, s1) := xfer2 bus s command
  -- time.sleep(0.001)
  let (_, s2) := xfer2 bus s1 dummyFrame
  let (response, s3) := xfer2 bus s2 dummyFrame
  (response, s3)

/-- `XcpSpiHandler.send_set_mta`: transmit the SET_MTA frame, sleep 1 ms,
transmit two filler frames, and test the first byte received during the
second filler transaction.  `resp[0]` on an empty response raises
`IndexError`, modelled as `none`. -/
def send_set_mta (bus : SpiBus) (s : SpiState) (address : Nat) :
    Option Bool × SpiState :=
  let (_resp1, s1) := xfer2 bus s (set_mta_frame address)
  -- time.sleep(0.001)
  let (_, s2) := xfer2 bus s1 dummyFrame
  let (resp, s3) := xfer2 bus s2 dummyFrame
  match resp.head? with
  | none => (none, s3)
  | some b =>
    if b = 0xFF then (some true, s3)
    else if b = 0xFE then (some false, s3)
    else (some false, s3)

/-! ### Control-channel adapter model -/

/-- An inbound message after `json.loads`: the fields `on_message` reads via
`data.get(...)`, each possibly absent. -/
structure Msg where
  cmd : Option String := none
  con_id : Option String := none
  add : Option String := none
  size : Option String := none
  data : Option String := none

/-- One `ws.send(json.dumps(...))` reply, by shape. `memReadErr` carries
`value: null` plus the `error` string; `memWriteState` carries `state`. -/
inductive Reply where
  | initAck (con_id : String)
  | memReadOk (add : String) (value : String)
  | memReadErr (add : String) (error : String)
  | memWriteState (add : String) (state : String)
deriving DecidableEq

/-- Gateway state visible to the model: SPI transaction state plus the list
of replies sent on the WebSocket so far. -/
structure GwState where
  spi : SpiState
  sent : List Reply
deriving DecidableEq

def wsSend (st : GwState) (r : Reply) : GwState :=
  { st with sent := st.sent ++ [r] }

/-- `num_elements` mapping in the mem_read path: 8→1, 16→2, 32→4, any other
size passes through unchanged. -/
def numElements (size : Nat) : Nat :=
  if size = 8 then 1
  else if size = 16 then 2
  else if size = 32 then 4
  else size

/-- The width-dispatched value extraction of the mem_read success branch:
length checks and little-endian decode, or the fallback `value = 0`.
`.error` carries the `error` string of the reply sent before the early
`return`. -/
def extract_value (spi_resp : List Nat) (size : Nat) : Except String Nat :=
  if size = 8 then
    if spi_resp.length < 2 then .error "Insufficient response length for 8-bit"
    else .ok (spi_resp.getD 1 0)
  else if size = 16 then
    if spi_resp.length < 3 then .error "Insufficient response length for 16-bit"
    else .ok ((spi_resp.getD 2 0) <<< 8 ||| spi_resp.getD 1 0)
  else if size = 32 then
    if spi_resp.length < 5 then .error "Insufficient response length for 32-bit"
    else .ok ((spi_resp.getD 4 0) <<< 24 ||| (spi_resp.getD 3 0) <<< 16 |||
              (spi_resp.getD 2 0) <<< 8 ||| spi_resp.getD 1 0)
  else .ok 0

/-- The `cmd == "mem_read"` branch of `XcpGatewayClient.on_message`.
A parse failure (`int(...)` raising) aborts with the state unchanged,
matching the top-level `except` that logs and sends nothing. -/
def handleMemRead (bus : SpiBus) (st : GwState) (addr_str size_str : String) :
    GwState :=
  match pyIntHex addr_str with
  | none => st
  | some address =>
    match pySizeParse size_str with
    | none => st
    | some size =>
      let num_elements := numElements size
      match send_set_mta bus st.spi address with
      | (none, spi1) => { st with spi := spi1 }
      | (some false, spi1) =>
        wsSend { st with spi := spi1 } (.memReadErr addr_str "SET_MTA failed")
      | (some true, spi1) =>
        let st := { st with spi := spi1 }
        let spi_cmd := short_upload_frame num_elements address
        let (spi_resp, spi2) := send_command bus st.spi spi_cmd
        let st := { st with spi := spi2 }
        match spi_resp.head? with
        | none => st
        | some b0 =>
          if b0 = 0xFF then
            match extract_value spi_resp size with
            | .error e => wsSend st (.memReadErr addr_str e)
            | .ok value =>
              wsSend st (.memReadOk addr_str (pyFormatBin value size))
          else wsSend st (.memReadErr addr_str "SHORT_UPLOAD failed")

/-- The `cmd == "mem_write"` branch of `XcpGatewayClient.on_message`.
`size_bits % 8 != 0` raises `ValueError("Invalid bit size")`, caught at the
handler boundary: no reply is sent. -/
def handleMemWrite (bus : SpiBus) (st : GwState)
    (addr_str size_str data_bits : String) : GwState :=
  match pyIntHex addr_str with
  | none => st
  | some address =>
    match pySizeParse size_str with
    | none => st
    | some size_bits =>
      if size_bits % 8 ≠ 0 then st
      else
        let length_bytes := size_bits / 8
        match pyIntBin data_bits with
        | none => st
        | some data_value =>
          let data_bytes :=
            (List.range length_bytes).map
              (fun i => (data_value >>> (8 * i)) &&& 0xFF)
          match send_set_mta bus st.spi address with
          | (none, spi1) => { st with spi := spi1 }
          | (some false, spi1) =>
            wsSend { st with spi := spi1 }
              (.memWriteState addr_str "SET_MTA failed")
          | (some true, spi1) =>
            let st := { st with spi := spi1 }
            let spi_cmd := pad8 ([0xF0, length_bytes] ++ data_bytes)
            let (spi_resp, spi2) := send_command bus st.spi spi_cmd
            let st := { st with spi := spi2 }
            match spi_resp.head? with
            | none => st
            | some b0 =>
            wsSend st
              (.memWriteState addr_str (if b0 = 0xFF then "success" else "fail"))

/-- `XcpGatewayClient.on_message` dispatch: `init`, `mem_read`, `mem_write`,
unknown commands ignored, missing/empty `cmd` ignored.  A missing `add`
makes `int(None, 16)` raise, so the state is returned unchanged. -/
def on_message (bus : SpiBus) (st : GwState) (msg : Msg) : GwState :=
  match msg.cmd with
  | none => st
  | some cmd =>
    if cmd = "" then st
    else if cmd = "init" then
      wsSend st (.initAck (msg.con_id.getD "00"))
    else if cmd = "mem_read" then
      match msg.add with
      | none => st
      | some addr_str => handleMemRead bus st addr_str (msg.size.getD "1")
    else if cmd = "mem_write" then
      match msg.add with
      | none => st
      | some addr_str =>
        handleMemWrite bus st addr_str (msg.size.getD "8")
          (msg.data.getD "0b00000000")
    else st

/-! ### Concrete fixtures used by closed theorems and witnesses

Each `SpiBus` fixture fixes what the target returns per transaction index.
A logical operation consumes six transactions: indices 0-2 for SET_MTA
(response read at index 2) and 3-5 for the transfer (response read at
index 5). -/

/-- Gateway state at startup: no transactions performed, nothing sent. -/
def initState : GwState := ⟨⟨0, []⟩, []⟩

/-- A target that answers every transaction with a success status frame. -/
def okBus : SpiBus :=
  ⟨fun _ => [0xFF, 0x00, 0x00, 0x00, 0x00, 0x00, 0x00, 0x00]⟩

/-- A target that answers every transaction with an error status frame. -/
def errBus : SpiBus :=
  ⟨fun _ => [0xFE, 0x00, 0x00, 0x00, 0x00, 0x00, 0x00, 0x00]⟩

/-- SET_MTA succeeds; the SHORT_UPLOAD response has status 0xFF but only two
bytes, fewer than the five a 32-bit read requires. -/
def c2Bus : SpiBus :=
  ⟨fun n => if n = 2 then [0xFF, 0x00, 0x00, 0x00, 0x00, 0x00, 0x00, 0x00]
    else if n = 5 then [0xFF, 0x11] else []⟩

/-- SET_MTA succeeds; the SHORT_UPLOAD response is status 0xFF followed by
the little-endian bytes of 0x12345678. -/
def c4Bus : SpiBus :=
  ⟨fun n => if n = 2 then [0xFF, 0x00, 0x00, 0x00, 0x00, 0x00, 0x00, 0x00]
    else if n = 5 then [0xFF, 0x78, 0x56, 0x34, 0x12] else []⟩

def c4Msg : Msg :=
  { cmd := some "mem_read", add := some "0x20000010", size := some "32" }

/-- A mem_write whose bit width is not a multiple of 8. -/
def c6Msg : Msg :=
  { cmd := some "mem_write", add := some "0x20000010", size := some "12",
    data := some "0b101010101010" }

/-- A 64-bit mem_write: 8 data bytes, more than the 6 a DOWNLOAD frame can
carry. -/
def c7Msg : Msg :=
  { cmd := some "mem_write", add := some "0x00", size := some "64",
    data := some "0b1" }

/-- A target whose response during the first filler transaction (index 1)
differs from its response during the second (index 2). -/
def c8Bus : SpiBus :=
  ⟨fun n => if n = 1 then [1] else if n = 2 then [2] else []⟩

/-- SET_MTA succeeds; the SHORT_UPLOAD response has status 0xFF and nonzero
payload bytes. -/
def c10Bus : SpiBus :=
  ⟨fun n => if n = 2 then [0xFF, 0x00, 0x00, 0x00, 0x00, 0x00, 0x00, 0x00]
    else if n = 5 then [0xFF, 0xAB, 0xCD, 0x00, 0x00, 0x00, 0x00, 0x00]
    else []⟩

/-- A mem_read with parsed size 0. -/
def c10Msg : Msg :=
  { cmd := some "mem_read", add := some "0x10", size := some "0" }

/-! ### Transport lemmas -/

/-- One `send_command` exchange: three transmissions (padded command, two
filler frames); the returned response is the target output of the third
transaction. -/
theorem send_command_eq (bus : SpiBus) (s : SpiState) (command : List Nat) :
    send_command bus s command =
      (bus.rx (s.count + 2),
       ⟨s.count + 3, s.txLog ++ [pad8 command, dummyFrame, dummyFrame]⟩) := by
  simp [send_command, xfer2]

/-- One `send_set_mta` exchange: three transmissions (SET_MTA frame, two
filler frames); the outcome is decided by the first byte of the target
output of the third transaction. -/
theorem send_set_mta_eq (bus : SpiBus) (s : SpiState) (a : Nat) :
    send_set_mta bus s a =
      ((bus.rx (s.count + 2)).head?.map (fun b => decide (b = 0xFF)),
       ⟨s.count + 3, s.txLog ++ [set_mta_frame a, dummyFrame, dummyFrame]⟩) := by
  simp only [send_set_mta, xfer2]
  cases h : (bus.rx (s.count + 1 + 1)).head? with
  | none =>
    have h2 : (bus.rx (s.count + 2)).head? = none := h
    simp [h, h2]
  | some b =>
    have h2 : (bus.rx (s.count + 2)).head? = some b := h
    by_cases hb : b = 0xFF <;> simp [h, h2, hb]

theorem wsSend_spi (st : GwState) (r : Reply) : (wsSend st r).spi = st.spi := rfl

theorem wsSend_sent (st : GwState) (r : Reply) :
    (wsSend st r).sent = st.sent ++ [r] := rfl

theorem pad8_eq_of_le (l : List Nat) (h : 8 ≤ l.length) : pad8 l = l := by
  simp [pad8, Nat.not_lt.mpr h]

theorem toDigits_two_zero : Nat.toDigits 2 0 = ['0'] := rfl

/-- Formatting the value 0 with a positive width yields `0b` followed by
exactly `w` zero characters. -/
theorem pyFormatBin_zero (w : Nat) (hw : 1 ≤ w) :
    pyFormatBin 0 w = String.mk ('0' :: 'b' :: List.replicate w '0') := by
  rcases w with _ | n
  · omega
  rcases n with _ | m
  · simp [pyFormatBin, toDigits_two_zero]
  · have h1 : (1 : Nat) < m + 1 + 1 := by omega
    simp [pyFormatBin, toDigits_two_zero, h1]
    rw [← List.replicate_succ']

/-! ### Claims -/

/-- C1: for every address `a` and width `w ∈ {8,16,32}`, the SET_MTA frame is
exactly `[0xF6, 0, 0, 0, low byte of a, 0, 0, high byte of a]` and the
SHORT_UPLOAD frame is exactly
`[0xF5, numElements w, 0, 0, low byte of a, 0, 0, high byte of a]` with
`numElements 8 = 1`, `numElements 16 = 2`, `numElements 32 = 4`; reading the
header fields back recovers the low byte, the high byte and the element
count, where the low byte is `a % 256` and the high byte is
`a / 2^24 % 256`. -/
theorem xcpC1 (a w : Nat) (hw : w = 8 ∨ w = 16 ∨ w = 32) :
    set_mta_frame a =
      [0xF6, 0x00, 0x00, 0x00, a &&& 0xFF, 0x00, 0x00, (a >>> 24) &&& 0xFF] ∧
    short_upload_frame (numElements w) a =
      [0xF5, numElements w, 0x00, 0x00, a &&& 0xFF, 0x00, 0x00,
       (a >>> 24) &&& 0xFF] ∧
    (set_mta_frame a).getD 4 0 = a &&& 0xFF ∧
    (set_mta_frame a).getD 7 0 = (a >>> 24) &&& 0xFF ∧
    (short_upload_frame (numElements w) a).getD 1 0 = numElements w ∧
    (short_upload_frame (numElements w) a).getD 4 0 = a &&& 0xFF ∧
    (short_upload_frame (numElements w) a).getD 7 0 = (a >>> 24) &&& 0xFF ∧
    (numElements 8 = 1 ∧ numElements 16 = 2 ∧ numElements 32 = 4) ∧
    a &&& 0xFF = a % 256 ∧
    (a >>> 24) &&& 0xFF = a / 2 ^ 24 % 256 := by
  refine ⟨rfl, rfl, rfl, rfl, rfl, rfl, rfl, ⟨rfl, rfl, rfl⟩, ?_, ?_⟩
  · exact Nat.and_pow_two_sub_one_eq_mod a 8
  · rw [Nat.and_pow_two_sub_one_eq_mod (a >>> 24) 8, Nat.shiftRight_eq_div_pow]

/-- Witness for C1 at `a = 0x20000010`, `w = 8`. -/
theorem xcpC1_witness :
    ((8 : Nat) = 8 ∨ (8 : Nat) = 16 ∨ (8 : Nat) = 32) ∧
    (set_mta_frame 0x20000010 =
      [0xF6, 0x00, 0x00, 0x00, 0x20000010 &&& 0xFF, 0x00, 0x00,
       (0x20000010 >>> 24) &&& 0xFF] ∧
    short_upload_frame (numElements 8) 0x20000010 =
      [0xF5, numElements 8, 0x00, 0x00, 0x20000010 &&& 0xFF, 0x00, 0x00,
       (0x20000010 >>> 24) &&& 0xFF] ∧
    (set_mta_frame 0x20000010).getD 4 0 = 0x20000010 &&& 0xFF ∧
    (set_mta_frame 0x20000010).getD 7 0 = (0x20000010 >>> 24) &&& 0xFF ∧
    (short_upload_frame (numElements 8) 0x20000010).getD 1 0 = numElements 8 ∧
    (short_upload_frame (numElements 8) 0x20000010).getD 4 0 =
      0x20000010 &&& 0xFF ∧
    (short_upload_frame (numElements 8) 0x20000010).getD 7 0 =
      (0x20000010 >>> 24) &&& 0xFF ∧
    (numElements 8 = 1 ∧ numElements 16 = 2 ∧ numElements 32 = 4) ∧
    0x20000010 &&& 0xFF = 0x20000010 % 256 ∧
    (0x20000010 >>> 24) &&& 0xFF = 0x20000010 / 2 ^ 24 % 256) :=
  ⟨Or.inl rfl, xcpC1 0x20000010 8 (Or.inl rfl)⟩

/-- C2: for a read of width 8, 16 or 32, if the SHORT_UPLOAD response has
status byte 0xFF but fewer than `1 + numElements w` bytes, the gateway sends
exactly one reply, the `Insufficient response length` error with value null,
and never a decoded value. -/
theorem xcpC2 (bus : SpiBus) (st : GwState) (addr_str size_str : String)
    (address size : Nat)
    (hA : pyIntHex addr_str = some address)
    (hS : pySizeParse size_str = some size)
    (hw : size = 8 ∨ size = 16 ∨ size = 32)
    (hMta : (bus.rx (st.spi.count + 2)).head? = some 0xFF)
    (hStat : (bus.rx (st.spi.count + 5)).head? = some 0xFF)
    (hLen : (bus.rx (st.spi.count + 5)).length < 1 + numElements size) :
    (handleMemRead bus st addr_str size_str).sent =
      st.sent ++ [Reply.memReadErr addr_str
        (if size = 8 then "Insufficient response length for 8-bit"
         else if size = 16 then "Insufficient response length for 16-bit"
         else "Insufficient response length for 32-bit")] := by
  rcases hw with rfl | rfl | rfl <;>
  · simp [numElements] at hLen
    simp [handleMemRead, hA, hS, send_set_mta_eq, send_command_eq, hMta, hStat,
      extract_value, numElements, wsSend, hLen]

/-- Witness for C2: a 32-bit read whose upload response has only 2 bytes. -/
theorem xcpC2_witness :
    (pyIntHex "0x20000010" = some 0x20000010 ∧
     pySizeParse "32" = some 32 ∧
     ((32 : Nat) = 8 ∨ (32 : Nat) = 16 ∨ (32 : Nat) = 32) ∧
     (c2Bus.rx (initState.spi.count + 2)).head? = some 0xFF ∧
     (c2Bus.rx (initState.spi.count + 5)).head? = some 0xFF ∧
     (c2Bus.rx (initState.spi.count + 5)).length < 1 + numElements 32) ∧
    (handleMemRead c2Bus initState "0x20000010" "32").sent =
      initState.sent ++ [Reply.memReadErr "0x20000010"
        (if (32 : Nat) = 8 then "Insufficient response length for 8-bit"
         else if (32 : Nat) = 16 then "Insufficient response length for 16-bit"
         else "Insufficient response length for 32-bit")] :=
  ⟨⟨by decide, by decide, by decide, by decide, by decide, by decide⟩,
   xcpC2 c2Bus initState "0x20000010" "32" 0x20000010 32 (by decide)
     (by decide) (by decide) (by decide) (by decide) (by decide)⟩

/-- C3: if the SET_MTA response status byte is not 0xFF, the read and the
write both stop after the three SET_MTA transactions (whose opcodes are 0xF6
and 0xAA, never 0xF5 or 0xF0) and send exactly the `SET_MTA failed` reply:
no SHORT_UPLOAD or DOWNLOAD frame is sent for that operation. -/
theorem xcpC3 (bus : SpiBus) (st : GwState)
    (addr_str size_str data_str : String)
    (address size data_value b0 : Nat)
    (hA : pyIntHex addr_str = some address)
    (hS : pySizeParse size_str = some size)
    (h8 : size % 8 = 0)
    (hD : pyIntBin data_str = some data_value)
    (hMta : (bus.rx (st.spi.count + 2)).head? = some b0)
    (hb : b0 ≠ 0xFF) :
    handleMemRead bus st addr_str size_str =
      ⟨⟨st.spi.count + 3,
        st.spi.txLog ++ [set_mta_frame address, dummyFrame, dummyFrame]⟩,
       st.sent ++ [Reply.memReadErr addr_str "SET_MTA failed"]⟩ ∧
    handleMemWrite bus st addr_str size_str data_str =
      ⟨⟨st.spi.count + 3,
        st.spi.txLog ++ [set_mta_frame address, dummyFrame, dummyFrame]⟩,
       st.sent ++ [Reply.memWriteState addr_str "SET_MTA failed"]⟩ ∧
    (set_mta_frame address).head? = some 0xF6 ∧
    dummyFrame.head? = some 0xAA := by
  refine ⟨?_, ?_, rfl, rfl⟩
  · simp [handleMemRead, hA, hS, send_set_mta_eq, hMta, hb, wsSend]
  · simp [handleMemWrite, hA, hS, h8, hD, send_set_mta_eq, hMta, hb, wsSend]

/-- Witness for C3: SET_MTA answered with status 0xFE. -/
theorem xcpC3_witness :
    (pyIntHex "0x10" = some 0x10 ∧
     pySizeParse "8" = some 8 ∧
     (8 : Nat) % 8 = 0 ∧
     pyIntBin "0b1" = some 1 ∧
     (errBus.rx (initState.spi.count + 2)).head? = some 0xFE ∧
     (0xFE : Nat) ≠ 0xFF) ∧
    (handleMemRead errBus initState "0x10" "8" =
      ⟨⟨initState.spi.count + 3,
        initState.spi.txLog ++ [set_mta_frame 0x10, dummyFrame, dummyFrame]⟩,
       initState.sent ++ [Reply.memReadErr "0x10" "SET_MTA failed"]⟩ ∧
    handleMemWrite errBus initState "0x10" "8" "0b1" =
      ⟨⟨initState.spi.count + 3,
        initState.spi.txLog ++ [set_mta_frame 0x10, dummyFrame, dummyFrame]⟩,
       initState.sent ++ [Reply.memWriteState "0x10" "SET_MTA failed"]⟩ ∧
    (set_mta_frame 0x10).head? = some 0xF6 ∧
    dummyFrame.head? = some 0xAA) :=
  ⟨⟨by decide, by decide, by decide, by decide, by decide, by decide⟩,
   xcpC3 errBus initState "0x10" "8" "0b1" 0x10 8 1 0xFE (by decide)
     (by decide) (by decide) (by decide) (by decide) (by decide)⟩

/-- C4: the request `{cmd:"mem_read", add:"0x20000010", size:"32"}` against a
target whose SHORT_UPLOAD response bytes are `[0xFF,0x78,0x56,0x34,0x12]`
yields exactly the reply
`{res:"mem_read", add:"0x20000010",
value:"0b00010010001101000101011001111000"}`: the payload is decoded
little-endian to 0x12345678. -/
theorem xcpC4 :
    (on_message c4Bus initState c4Msg).sent =
      [Reply.memReadOk "0x20000010" "0b00010010001101000101011001111000"] := by
  decide

/-- C5: a 32-bit write of 0xDEADBEEF produces, after a successful SET_MTA,
exactly the DOWNLOAD frame `[0xF0, 4, 0xEF, 0xBE, 0xAD, 0xDE, 0x00, 0x00]`:
opcode 0xF0, length byte 4, data little-endian, padded with two zero bytes
to 8 bytes. -/
theorem xcpC5 (bus : SpiBus) (st : GwState) (addr_str : String) (address : Nat)
    (hA : pyIntHex addr_str = some address)
    (hMta : (bus.rx (st.spi.count + 2)).head? = some 0xFF) :
    (handleMemWrite bus st addr_str "32"
        "0b11011110101011011011111011101111").spi.txLog =
      st.spi.txLog ++ [set_mta_frame address, dummyFrame, dummyFrame,
        [0xF0, 4, 0xEF, 0xBE, 0xAD, 0xDE, 0x00, 0x00], dummyFrame,
        dummyFrame] := by
  have hS : pySizeParse "32" = some 32 := by decide
  have hD : pyIntBin "0b11011110101011011011111011101111" =
      some 0xDEADBEEF := by decide
  simp only [handleMemWrite, hA, hS, hD, send_set_mta_eq, send_command_eq,
    hMta]
  rcases hR : (bus.rx (st.spi.count + 5)).head? with _ | b0 <;>
    simp [hR, wsSend_spi, send_command_eq] <;> decide

/-- Witness for C5 at address 0x20000010. -/
theorem xcpC5_witness :
    (pyIntHex "0x20000010" = some 0x20000010 ∧
     (okBus.rx (initState.spi.count + 2)).head? = some 0xFF) ∧
    (handleMemWrite okBus initState "0x20000010" "32"
        "0b11011110101011011011111011101111").spi.txLog =
      initState.spi.txLog ++ [set_mta_frame 0x20000010, dummyFrame,
        dummyFrame, [0xF0, 4, 0xEF, 0xBE, 0xAD, 0xDE, 0x00, 0x00],
        dummyFrame, dummyFrame] :=
  ⟨⟨by decide, by decide⟩,
   xcpC5 okBus initState "0x20000010" 0x20000010 (by decide) (by decide)⟩

/-- C6 counterexample: a mem_write with bit width 12 (not a multiple of 8)
receives no reply at all — the `ValueError` is swallowed by the top-level
handler — contradicting the claim that it receives a reply carrying the
MalformedRequest error. Nothing is sent on the bus either. -/
theorem xcpC6_cex :
    (on_message okBus initState c6Msg).sent = [] ∧
    (on_message okBus initState c6Msg).spi.txLog = [] := by decide

/-- C6 as amended: a mem_read or mem_write whose fields parse and whose bus
responses are nonempty receives exactly one reply; a mem_write whose bit
width is not a multiple of 8 receives no reply (the internal error is caught
and only logged). -/
theorem xcpC6_amended (bus : SpiBus) (st : GwState)
    (addr_str size_str data_str : String) (address size : Nat)
    (hA : pyIntHex addr_str = some address)
    (hS : pySizeParse size_str = some size)
    (hMta : (bus.rx (st.spi.count + 2)).head? ≠ none)
    (hResp : (bus.rx (st.spi.count + 5)).head? ≠ none) :
    (∃ r, (handleMemRead bus st addr_str size_str).sent = st.sent ++ [r]) ∧
    (size % 8 = 0 → ∀ data_value, pyIntBin data_str = some data_value →
      ∃ r, (handleMemWrite bus st addr_str size_str data_str).sent =
        st.sent ++ [r]) ∧
    (size % 8 ≠ 0 →
      handleMemWrite bus st addr_str size_str data_str = st) := by
  rcases hO : (bus.rx (st.spi.count + 2)).head? with _ | b
  · exact absurd hO hMta
  rcases hR : (bus.rx (st.spi.count + 5)).head? with _ | b0
  · exact absurd hR hResp
  refine ⟨?_, ?_, ?_⟩
  · by_cases hb : b = 0xFF
    · subst hb
      by_cases hb0 : b0 = 0xFF
      · subst hb0
        cases hx : extract_value (bus.rx (st.spi.count + 5)) size with
        | error e =>
          exact ⟨Reply.memReadErr addr_str e, by
            simp [handleMemRead, hA, hS, send_set_mta_eq, send_command_eq,
              hO, hR, hx, wsSend]⟩
        | ok v =>
          exact ⟨Reply.memReadOk addr_str (pyFormatBin v size), by
            simp [handleMemRead, hA, hS, send_set_mta_eq, send_command_eq,
              hO, hR, hx, wsSend]⟩
      · exact ⟨Reply.memReadErr addr_str "SHORT_UPLOAD failed", by
          simp [handleMemRead, hA, hS, send_set_mta_eq, send_command_eq,
            hO, hR, hb0, wsSend]⟩
    · exact ⟨Reply.memReadErr addr_str "SET_MTA failed", by
        simp [handleMemRead, hA, hS, send_set_mta_eq, hO, hb, wsSend]⟩
  · intro h8 data_value hD
    by_cases hb : b = 0xFF
    · subst hb
      exact ⟨Reply.memWriteState addr_str
          (if b0 = 0xFF then "success" else "fail"), by
        simp [handleMemWrite, hA, hS, h8, hD, send_set_mta_eq,
          send_command_eq, hO, hR, wsSend]⟩
    · exact ⟨Reply.memWriteState addr_str "SET_MTA failed", by
        simp [handleMemWrite, hA, hS, h8, hD, send_set_mta_eq, hO, hb,
          wsSend]⟩
  · intro h8
    simp [handleMemWrite, hA, hS, h8]

/-- Witness for the amended C6: a 16-bit read and write at 0x20000010. -/
theorem xcpC6_amended_witness :
    (pyIntHex "0x20000010" = some 0x20000010 ∧
     pySizeParse "16" = some 16 ∧
     (okBus.rx (initState.spi.count + 2)).head? ≠ none ∧
     (okBus.rx (initState.spi.count + 5)).head? ≠ none) ∧
    ((∃ r, (handleMemRead okBus initState "0x20000010" "16").sent =
        initState.sent ++ [r]) ∧
     ((16 : Nat) % 8 = 0 → ∀ data_value,
        pyIntBin "0b1" = some data_value →
        ∃ r, (handleMemWrite okBus initState "0x20000010" "16" "0b1").sent =
          initState.sent ++ [r]) ∧
     ((16 : Nat) % 8 ≠ 0 →
        handleMemWrite okBus initState "0x20000010" "16" "0b1" =
          initState)) :=
  ⟨⟨by decide, by decide, by decide, by decide⟩,
   xcpC6_amended okBus initState "0x20000010" "16" "0b1" 0x20000010 16
     (by decide) (by decide) (by decide) (by decide)⟩

/-- C7 counterexample: a 64-bit mem_write (8 data bytes, more than 6) does
not fail: the gateway transmits a 10-byte DOWNLOAD frame on the bus and
replies `success`, contradicting the claim that an error is returned and no
frame longer than 8 bytes is ever sent. -/
theorem xcpC7_cex :
    (on_message okBus initState c7Msg).spi.txLog =
      [set_mta_frame 0, dummyFrame, dummyFrame,
       [0xF0, 8, 1, 0, 0, 0, 0, 0, 0, 0], dummyFrame, dummyFrame] ∧
    (on_message okBus initState c7Msg).sent =
      [Reply.memWriteState "0x00" "success"] ∧
    8 < ([0xF0, 8, 1, 0, 0, 0, 0, 0, 0, 0] : List Nat).length := by decide

/-- C7 as amended: a mem_write with more than 6 data bytes builds a DOWNLOAD
frame of `2 + size/8` bytes — longer than 8 — and transmits it unchanged on
the bus; no error is returned to the caller. -/
theorem xcpC7_amended (bus : SpiBus) (st : GwState)
    (addr_str size_str data_str : String) (address size data_value : Nat)
    (hA : pyIntHex addr_str = some address)
    (hS : pySizeParse size_str = some size)
    (h8 : size % 8 = 0) (hBig : 6 < size / 8)
    (hD : pyIntBin data_str = some data_value)
    (hMta : (bus.rx (st.spi.count + 2)).head? = some 0xFF) :
    (handleMemWrite bus st addr_str size_str data_str).spi.txLog =
      st.spi.txLog ++ [set_mta_frame address, dummyFrame, dummyFrame,
        [0xF0, size / 8] ++ (List.range (size / 8)).map
          (fun i => (data_value >>> (8 * i)) &&& 0xFF),
        dummyFrame, dummyFrame] ∧
    8 < ([0xF0, size / 8] ++ (List.range (size / 8)).map
          (fun i => (data_value >>> (8 * i)) &&& 0xFF)).length := by
  have hlen : ([0xF0, size / 8] ++ (List.range (size / 8)).map
      (fun i => (data_value >>> (8 * i)) &&& 0xFF)).length = 2 + size / 8 := by
    simp [List.length_append, List.length_map, List.length_range]
    omega
  have hge : 8 ≤ size / 8 + 1 + 1 := by omega
  constructor
  · simp only [handleMemWrite, hA, hS, h8, hD, send_set_mta_eq,
      send_command_eq, hMta]
    rcases hR : (bus.rx (st.spi.count + 5)).head? with _ | b0 <;>
      simp [hR, wsSend_spi, send_command_eq, pad8_eq_of_le, hge]
  · omega

/-- Witness for the amended C7: the 64-bit write of value 1. -/
theorem xcpC7_amended_witness :
    (pyIntHex "0x00" = some 0 ∧
     pySizeParse "64" = some 64 ∧
     (64 : Nat) % 8 = 0 ∧ 6 < (64 : Nat) / 8 ∧
     pyIntBin "0b1" = some 1 ∧
     (okBus.rx (initState.spi.count + 2)).head? = some 0xFF) ∧
    ((handleMemWrite okBus initState "0x00" "64" "0b1").spi.txLog =
      initState.spi.txLog ++ [set_mta_frame 0, dummyFrame, dummyFrame,
        [0xF0, 64 / 8] ++ (List.range (64 / 8)).map
          (fun i => ((1 : Nat) >>> (8 * i)) &&& 0xFF),
        dummyFrame, dummyFrame] ∧
     8 < ([0xF0, 64 / 8] ++ (List.range (64 / 8)).map
          (fun i => ((1 : Nat) >>> (8 * i)) &&& 0xFF)).length) :=
  ⟨⟨by decide, by decide, by decide, by decide, by decide, by decide⟩,
   xcpC7_amended okBus initState "0x00" "64" "0b1" 0 64 1
     (by decide) (by decide) (by decide) (by decide) (by decide) (by decide)⟩

/-- C8 counterexample: in one exchange the gateway transmits three frames
(the command and two 0xAA filler frames, not one) and returns the bytes
received during the third transaction, not those of the single filler
transaction the claim describes: on a target answering `[1]` at transaction
index 1 and `[2]` at index 2, the exchange returns `[2]`, not `[1]`. -/
theorem xcpC8_cex :
    (send_command c8Bus ⟨0, []⟩ [0xF5, 1, 0, 0, 0, 0, 0, 0]).1 = [2] ∧
    (send_command c8Bus ⟨0, []⟩ [0xF5, 1, 0, 0, 0, 0, 0, 0]).2.txLog =
      [[0xF5, 1, 0, 0, 0, 0, 0, 0], dummyFrame, dummyFrame] ∧
    ([2] : List Nat) ≠ [1] ∧
    ([[0xF5, 1, 0, 0, 0, 0, 0, 0], dummyFrame, dummyFrame] :
      List (List Nat)).length = 3 := by decide

/-- C8 as amended: every bus exchange is four physical steps — transmit the
command frame (discarding its received bytes), wait about 1 ms, transmit a
first all-0xAA filler frame (discarding its received bytes), then transmit a
second all-0xAA filler frame whose received bytes are taken as the response.
`send_set_mta` follows the same pattern. -/
theorem xcpC8_amended (bus : SpiBus) (s : SpiState) (command : List Nat)
    (a : Nat) :
    send_command bus s command =
      (bus.rx (s.count + 2),
       ⟨s.count + 3, s.txLog ++ [pad8 command, dummyFrame, dummyFrame]⟩) ∧
    (send_set_mta bus s a).2 =
      ⟨s.count + 3, s.txLog ++ [set_mta_frame a, dummyFrame, dummyFrame]⟩ ∧
    dummyFrame = List.replicate 8 0xAA :=
  ⟨send_command_eq bus s command, by rw [send_set_mta_eq], rfl⟩

/-- C10 counterexample: a mem_read with parsed size 0 and status 0xFF gets
the value string `0b0` (one zero bit, Python formats 0 at width 0 as `0`),
not a zero-padded string of exactly 0 bits. -/
theorem xcpC10_cex :
    (on_message c10Bus initState c10Msg).sent =
      [Reply.memReadOk "0x10" "0b0"] ∧
    "0b0" ≠ "0b" := by decide

/-- C10 as amended: for every mem_read whose parsed size is neither 8, 16
nor 32 but is at least 1, a status-0xFF SHORT_UPLOAD response yields the
reply value `0b` followed by exactly `size` zero characters, regardless of
the payload bytes the target returned. -/
theorem xcpC10_amended (bus : SpiBus) (st : GwState)
    (addr_str size_str : String) (address size : Nat)
    (hA : pyIntHex addr_str = some address)
    (hS : pySizeParse size_str = some size)
    (h8 : size ≠ 8) (h16 : size ≠ 16) (h32 : size ≠ 32)
    (hpos : 1 ≤ size)
    (hMta : (bus.rx (st.spi.count + 2)).head? = some 0xFF)
    (hStat : (bus.rx (st.spi.count + 5)).head? = some 0xFF) :
    (handleMemRead bus st addr_str size_str).sent =
      st.sent ++ [Reply.memReadOk addr_str
        (String.mk ('0' :: 'b' :: List.replicate size '0'))] := by
  simp [handleMemRead, hA, hS, send_set_mta_eq, send_command_eq, hMta, hStat,
    extract_value, h8, h16, h32, wsSend, pyFormatBin_zero size hpos]

/-- Witness for the amended C10: a 24-bit read whose payload bytes are
nonzero still yields 24 zero bits. -/
theorem xcpC10_amended_witness :
    (pyIntHex "0x10" = some 0x10 ∧
     pySizeParse "24" = some 24 ∧
     (24 : Nat) ≠ 8 ∧ (24 : Nat) ≠ 16 ∧ (24 : Nat) ≠ 32 ∧ 1 ≤ (24 : Nat) ∧
     (c10Bus.rx (initState.spi.count + 2)).head? = some 0xFF ∧
     (c10Bus.rx (initState.spi.count + 5)).head? = some 0xFF) ∧
    (handleMemRead c10Bus initState "0x10" "24").sent =
      initState.sent ++ [Reply.memReadOk "0x10"
        (String.mk ('0' :: 'b' :: List.replicate 24 '0'))] :=
  ⟨⟨by decide, by decide, by decide, by decide, by decide, by decide,
    by decide, by decide⟩,
   xcpC10_amended c10Bus initState "0x10" "24" 0x10 24 (by decide) (by decide)
     (by decide) (by decide) (by decide) (by decide) (by decide) (by decide)⟩

end XcpGateway
